import Mathlib

/-!
Verification of the AWS Global Accelerator accelerator resource
(`aws/resource_aws_globalaccelerator_accelerator.go`).

The Go file implements one Terraform resource binding: Create / Read /
Update / Delete lifecycle handlers driving the Global Accelerator
control-plane API, plus a status poll loop and projection helpers.

Modelling conventions:
- Go pointers (`*string`, `*bool`, `*Accelerator`, ...) become `Option`;
  the AWS SDK helpers `aws.StringValue` / `aws.BoolValue` become
  `Option.getD "" ` / `Option.getD false`.
- The ambient API connection becomes an explicit `Conn` record of pure
  response functions (the remote answered as a function of the request).
  For the poll loop, which observes the remote repeatedly over time, we
  additionally analyse the loop over an arbitrary observation sequence
  `obs : Nat → Except RemoteErr (Option Accelerator)` (the result of the
  k-th describe call).
- Terraform's `d.Get` returns the zero value for unset fields
  (`""` for strings, `false` for bools, `[]` for lists); `d.GetOk`
  reports `ok = false` exactly on the zero value.  `ResourceData` stores
  those materialised values.
- Functions that in Go return `error` return `Except String _` here,
  the `String` being the `fmt.Errorf` message with the cause appended.
- The field the AWS SDK calls `FlowLogsS3Prefix` is named `flowLogsS3Pfx`
  here (shortened, same meaning).
-/

/-- Model of a Go error value as seen through `isAWSErr`:
either a typed AWS API error with a code and message, or a generic error. -/
inductive RemoteErr where
  | awsErr (code : String) (message : String)
  | goErr (message : String)
deriving DecidableEq, Repr

/-- Go helper `strings.Contains` (the empty substring is contained in every string). -/
def containsSubstr (s sub : String) : Bool :=
  if sub.isEmpty then true else (s.splitOn sub).length != 1

/-- The provider helper `isAWSErr(err, code, message)`: true when `err` is an
AWS API error whose code equals `code` and whose message contains `message`. -/
def isAWSErr (e : RemoteErr) (code message : String) : Bool :=
  match e with
  | .awsErr c m => c == code && containsSubstr m message
  | .goErr _ => false

/-- Rendering of an error for `fmt.Errorf("...: %s", err)`. -/
def RemoteErr.errMsg : RemoteErr → String
  | .awsErr c m => c ++ ": " ++ m
  | .goErr m => m

/-- Constant `globalaccelerator.ErrCodeAcceleratorNotFoundException`. -/
def errCodeAcceleratorNotFoundException : String := "AcceleratorNotFoundException"

/-- Constant `globalaccelerator.AcceleratorStatusInProgress`. -/
def acceleratorStatusInProgress : String := "IN_PROGRESS"

/-- Constant `globalaccelerator.AcceleratorStatusDeployed`. -/
def acceleratorStatusDeployed : String := "DEPLOYED"

/-- Model of `globalaccelerator.IpSet` (SDK shape, pointer fields). -/
structure IpSet where
  ipAddresses : List String
  ipFamily : Option String
deriving DecidableEq, Repr

/-- Model of `globalaccelerator.AcceleratorAttributes` (SDK shape, pointer fields). -/
structure AcceleratorAttributes where
  flowLogsEnabled : Option Bool
  flowLogsS3Bucket : Option String
  flowLogsS3Pfx : Option String
deriving DecidableEq, Repr

/-- Model of `globalaccelerator.Accelerator` (SDK shape, pointer fields). -/
structure Accelerator where
  acceleratorArn : Option String
  name : Option String
  ipAddressType : Option String
  enabled : Option Bool
  ipSets : List IpSet
  status : Option String
deriving DecidableEq, Repr

/-- One flattened entry of the `ip_sets` computed attribute
(the `map[string]interface{}` built by the flattener). -/
structure IpSetMap where
  ipAddresses : List String
  ipFamily : String
deriving DecidableEq, Repr

/-- One entry of the `attributes` list as Terraform materialises it
(`map[string]interface{}`): `flow_logs_enabled` is always a bool, the two
string entries may be absent (`nil`), which the update path checks for. -/
structure AttrsMap where
  flowLogsEnabled : Bool
  flowLogsS3Bucket : Option String
  flowLogsS3Pfx : Option String
deriving DecidableEq, Repr

/-- The Terraform `*schema.ResourceData` fields this resource touches,
with values as `d.Get` materialises them (zero values for unset). -/
structure ResourceData where
  id : String
  name : String
  ipAddressType : String
  enabled : Bool
  ipSets : List IpSetMap
  attributes : List AttrsMap
deriving DecidableEq, Repr

/-- Model of `globalaccelerator.CreateAcceleratorInput`. -/
structure CreateAcceleratorInput where
  name : Option String
  idempotencyToken : Option String
  enabled : Option Bool
  ipAddressType : Option String
deriving DecidableEq, Repr

/-- Model of `globalaccelerator.UpdateAcceleratorInput`. -/
structure UpdateAcceleratorInput where
  acceleratorArn : Option String
  name : Option String
  enabled : Option Bool
  ipAddressType : Option String
deriving DecidableEq, Repr

/-- Model of `globalaccelerator.UpdateAcceleratorAttributesInput`. -/
structure UpdateAcceleratorAttributesInput where
  acceleratorArn : Option String
  flowLogsEnabled : Option Bool
  flowLogsS3Bucket : Option String
  flowLogsS3Pfx : Option String
deriving DecidableEq, Repr

/-- Model of `globalaccelerator.DeleteAcceleratorInput`. -/
structure DeleteAcceleratorInput where
  acceleratorArn : Option String
deriving DecidableEq, Repr

/-- The Global Accelerator connection: each SDK call is a pure function of
its request (see the file header note about the poll loop). -/
structure Conn where
  describeAccelerator : String → Except RemoteErr (Option Accelerator)
  describeAcceleratorAttributes : String → Except RemoteErr (Option AcceleratorAttributes)
  updateAccelerator : UpdateAcceleratorInput → Except RemoteErr Unit
  updateAcceleratorAttributes : UpdateAcceleratorAttributesInput → Except RemoteErr Unit
  deleteAccelerator : DeleteAcceleratorInput → Except RemoteErr Unit

/-- The schema flags declared for one field of the resource schema. -/
structure SchemaFlags where
  required : Bool := false
  optional : Bool := false
  computed : Bool := false
deriving DecidableEq, Repr

/-- Schema of `enabled`: `Optional: true, Computed: true`. -/
def enabledSchema : SchemaFlags := { optional := true, computed := true }

/-- Schema of `ip_address_type`: `Optional: true, Computed: true`. -/
def ipAddressTypeSchema : SchemaFlags := { optional := true, computed := true }

/-- The `DiffSuppressFunc` on the `attributes` schema entry:
suppress exactly when the old value is `"1"` and the new one `"0"`. -/
def attributesDiffSuppressFunc (k o n : String) : Bool :=
  if o == "1" && n == "0" then true else false

/-- Model of `resourceAwsGlobalAcceleratorAcceleratorFlattenIpSets`. -/
def resourceFlattenIpSets (ipsets : List IpSet) : List IpSetMap :=
  ipsets.map fun ipset =>
    { ipAddresses := ipset.ipAddresses, ipFamily := ipset.ipFamily.getD "" }

/-- Model of `resourceAwsGlobalAcceleratorAcceleratorFlattenAttributes`:
`nil` attributes flatten to the empty list, otherwise to a single map with
`aws.BoolValue` / `aws.StringValue` derefs (zero-value defaults). -/
def resourceFlattenAttributes : Option AcceleratorAttributes → List AttrsMap
  | none => []
  | some attributes =>
    [{ flowLogsEnabled := attributes.flowLogsEnabled.getD false,
       flowLogsS3Bucket := some (attributes.flowLogsS3Bucket.getD ""),
       flowLogsS3Pfx := some (attributes.flowLogsS3Pfx.getD "") }]

/-- Core of `resourceAwsGlobalAcceleratorAcceleratorRetrieve` applied to one
`DescribeAccelerator` response: a not-found error becomes `(nil, nil)`,
any other error is passed through, success yields `resp.Accelerator`. -/
def retrieveResult (r : Except RemoteErr (Option Accelerator)) :
    Except RemoteErr (Option Accelerator) :=
  match r with
  | .error e =>
    if isAWSErr e errCodeAcceleratorNotFoundException "" then .ok none
    else .error e
  | .ok acc => .ok acc

/-- Model of `resourceAwsGlobalAcceleratorAcceleratorRetrieve`. -/
def resourceRetrieve (conn : Conn) (acceleratorArn : String) :
    Except RemoteErr (Option Accelerator) :=
  retrieveResult (conn.describeAccelerator acceleratorArn)

/-- Outcome of the Read handler: `ok` models `return nil` with the final
`ResourceData`, `err` a non-nil `error` return, and `nilDeref` the Go
runtime panic from dereferencing a nil `*Accelerator`. -/
inductive ReadOutcome where
  | ok (d : ResourceData)
  | err (msg : String)
  | nilDeref
deriving DecidableEq, Repr

/-- Model of `resourceAwsGlobalAcceleratorAcceleratorRead`.  Note the flow faithfully
kept from the source: `resourceRetrieve` has already converted a not-found
error into `.ok none`, so the `isAWSErr` branch below never fires, and the
subsequent field accesses `accelerator.Name` etc. run on a nil pointer. -/
def resourceRead (conn : Conn) (d : ResourceData) : ReadOutcome :=
  match resourceRetrieve conn d.id with
  | .error e =>
    if isAWSErr e errCodeAcceleratorNotFoundException "" then
      ReadOutcome.ok { d with id := "" }
    else
      ReadOutcome.err ("Error reading Global Accelerator accelerator: " ++ e.errMsg)
  | .ok none => ReadOutcome.nilDeref
  | .ok (some accelerator) =>
    let d' : ResourceData :=
      { d with
        name := accelerator.name.getD "",
        ipAddressType := accelerator.ipAddressType.getD "",
        enabled := accelerator.enabled.getD false,
        ipSets := resourceFlattenIpSets accelerator.ipSets }
    match conn.describeAcceleratorAttributes d.id with
    | .error e =>
      ReadOutcome.err
        ("Error reading Global Accelerator accelerator attributes: " ++ e.errMsg)
    | .ok attrs =>
      ReadOutcome.ok { d' with attributes := resourceFlattenAttributes attrs }

/-- One return value of the `resource.StateRefreshFunc` closure:
`(nil, "", err)`, `(nil, "", nil)`, or `(accelerator, status, nil)`. -/
inductive RefreshResult where
  | err (e : RemoteErr)
  | notYet
  | state (a : Accelerator) (status : String)
deriving DecidableEq, Repr

/-- Body of `resourceAwsGlobalAcceleratorAcceleratorStateRefreshFunc` applied
to one raw `DescribeAccelerator` response: run the retrieve wrapper, pass
errors through, map a nil accelerator to `(nil, "", nil)`, otherwise return
the accelerator with `aws.StringValue(accelerator.Status)`. -/
def stateRefreshStep (r : Except RemoteErr (Option Accelerator)) : RefreshResult :=
  match retrieveResult r with
  | .error e => RefreshResult.err e
  | .ok none => RefreshResult.notYet
  | .ok (some accelerator) =>
    RefreshResult.state accelerator (accelerator.status.getD "")

/-- Model of `resourceAwsGlobalAcceleratorAcceleratorStateRefreshFunc` itself, reading
through a connection. -/
def resourceStateRefreshFunc (conn : Conn) (acceleratorArn : String) : RefreshResult :=
  stateRefreshStep (conn.describeAccelerator acceleratorArn)

/-- Outcome of the poll loop. -/
inductive WaitResult where
  | completed (a : Accelerator)
  | timedOut (lastStatus : String)
  | unexpectedState (status : String)
  | failed (e : RemoteErr)
deriving DecidableEq, Repr

/-- Modelled from the spec: the State Poller / `WaitForState` loop of the
`resource.StateChangeConf` the handlers build (the helper library's code is
not part of this repository's sources).  Per spec section 4.2: each tick it
invokes the refresh function on the next observation; a refresh error is
surfaced; absence (`notYet`) is a transient condition and polling continues;
a status in `target` returns the observed state immediately; a status in
`pending` continues polling, remembering the status for diagnostics; any
other status is surfaced as an unexpected state; when the timeout budget
(`fuel`, counted in poll ticks) is exhausted, fail with a timeout carrying
the last observed status.  `obs k` is the raw result of the k-th describe
call; `i` is the index of the next observation. -/
def waitForStateAux (obs : Nat → Except RemoteErr (Option Accelerator))
    (pending target : List String) (i fuel : Nat) (last : String) : WaitResult :=
  match fuel with
  | 0 => WaitResult.timedOut last
  | f + 1 =>
    match stateRefreshStep (obs i) with
    | RefreshResult.err e => WaitResult.failed e
    | RefreshResult.notYet => waitForStateAux obs pending target (i + 1) f last
    | RefreshResult.state a s =>
      if target.contains s then WaitResult.completed a
      else if pending.contains s then waitForStateAux obs pending target (i + 1) f s
      else WaitResult.unexpectedState s

/-- Modelled from the spec: `WaitForState` starting from the first
observation with no status observed yet. -/
def waitForState (obs : Nat → Except RemoteErr (Option Accelerator))
    (pending target : List String) (fuel : Nat) : WaitResult :=
  waitForStateAux obs pending target 0 fuel ""

/-- The `Pending` set of the `StateChangeConf` in the Create handler. -/
def createWaitPending : List String := [acceleratorStatusInProgress]

/-- The `Target` set of the `StateChangeConf` in the Create handler. -/
def createWaitTarget : List String := [acceleratorStatusDeployed]

/-- The `Pending` set of the `StateChangeConf` in the Update handler. -/
def updateWaitPending : List String := [acceleratorStatusInProgress]

/-- The `Target` set of the `StateChangeConf` in the Update handler. -/
def updateWaitTarget : List String := [acceleratorStatusDeployed]

/-- Error message a failed wait turns into
(`"Error waiting for ... availability: %s"`); the cause rendering of the
non-completed cases is modelled from the spec's error taxonomy. -/
def WaitResult.waitErrMsg (arn : String) : WaitResult → String
  | WaitResult.completed _ => ""
  | WaitResult.timedOut last =>
    "Error waiting for Global Accelerator accelerator (" ++ arn ++
      ") availability: timeout while waiting for state, last status: " ++ last
  | WaitResult.unexpectedState s =>
    "Error waiting for Global Accelerator accelerator (" ++ arn ++
      ") availability: unexpected state " ++ s
  | WaitResult.failed e =>
    "Error waiting for Global Accelerator accelerator (" ++ arn ++
      ") availability: " ++ e.errMsg

/-- The `CreateAcceleratorInput` the Create handler builds: `Name` and
`Enabled` are always set (the pointer to `d.Get`, so `false` when the user
left `enabled` unset), `IpAddressType` only when `d.GetOk` reports a
non-zero value, and a fresh client-side idempotency token. -/
def createAcceleratorOpts (d : ResourceData) (uniqueId : String) :
    CreateAcceleratorInput :=
  { name := some d.name,
    idempotencyToken := some uniqueId,
    enabled := some d.enabled,
    ipAddressType := if d.ipAddressType = "" then none else some d.ipAddressType }

/-- A remote mutation issued by the Update handler, recorded at the moment
the SDK call is made (whether or not it subsequently fails). -/
inductive Mutation where
  | updateBase (opts : UpdateAcceleratorInput)
  | updateAttrs (opts : UpdateAcceleratorAttributesInput)
deriving DecidableEq, Repr

/-- Whether a recorded mutation is a base-field `UpdateAccelerator` call. -/
def Mutation.isBase : Mutation → Bool
  | Mutation.updateBase _ => true
  | Mutation.updateAttrs _ => false

/-- Whether a recorded mutation is an `UpdateAcceleratorAttributes` call. -/
def Mutation.isAttrs : Mutation → Bool
  | Mutation.updateBase _ => false
  | Mutation.updateAttrs _ => true

/-- Input to the Update handler: `d` holds the new (desired) values that
`d.Get` returns during Update, the `old*` fields the previous desired state
that `d.HasChange` compares against. -/
structure UpdateData where
  d : ResourceData
  oldName : String
  oldIpAddressType : String
  oldEnabled : Bool
  oldAttributes : List AttrsMap
deriving Repr

/-- Predicate for `d.HasChange("name") || d.HasChange("ip_address_type") || d.HasChange("enabled")`. -/
def hasChangeBase (u : UpdateData) : Prop :=
  u.oldName ≠ u.d.name ∨ u.oldIpAddressType ≠ u.d.ipAddressType ∨
    u.oldEnabled ≠ u.d.enabled

instance (u : UpdateData) : Decidable (hasChangeBase u) := by
  unfold hasChangeBase; infer_instance

/-- Predicate for `d.HasChange("attributes")`. -/
def hasChangeAttributes (u : UpdateData) : Prop :=
  u.oldAttributes ≠ u.d.attributes

instance (u : UpdateData) : Decidable (hasChangeAttributes u) := by
  unfold hasChangeAttributes; infer_instance

/-- The `UpdateAcceleratorInput` the Update handler builds (same `GetOk`
treatment of `ip_address_type` as in Create). -/
def updateAcceleratorOpts (u : UpdateData) : UpdateAcceleratorInput :=
  { acceleratorArn := some u.d.id,
    name := some u.d.name,
    enabled := some u.d.enabled,
    ipAddressType := if u.d.ipAddressType = "" then none else some u.d.ipAddressType }

/-- The `UpdateAcceleratorAttributesInput` built by
`resourceAwsGlobalAcceleratorAcceleratorUpdateAttributes` from the first
`attributes` map: `FlowLogsEnabled` always set, the S3 fields only when the
map holds a non-nil value. -/
def updateAttributesOpts (acceleratorArn : String) (m : AttrsMap) :
    UpdateAcceleratorAttributesInput :=
  { acceleratorArn := some acceleratorArn,
    flowLogsEnabled := some m.flowLogsEnabled,
    flowLogsS3Bucket := m.flowLogsS3Bucket,
    flowLogsS3Pfx := m.flowLogsS3Pfx }

/-- Model of `resourceAwsGlobalAcceleratorAcceleratorUpdateAttributes`. -/
def resourceUpdateAttributes (conn : Conn) (acceleratorArn : String)
    (m : AttrsMap) : Except String Unit :=
  match conn.updateAcceleratorAttributes (updateAttributesOpts acceleratorArn m) with
  | .ok _ => .ok ()
  | .error e =>
    .error ("Error updating Global Accelerator accelerator attributes: " ++ e.errMsg)

/-- Result of one run of the Update handler: the remote mutations issued in
order, the field keys marked applied via `d.SetPartial`, and the return
value (`.error` for an early error return, `.ok` the outcome of the
terminal Read). -/
structure UpdateRun where
  muts : List Mutation
  applied : List String
  result : Except String ReadOutcome
deriving Repr

/-- Second half of the Update handler: the `HasChange("attributes")` block
(update the attributes only when the new list is non-empty, mark the key
applied unless the call failed) followed by the terminal Read. -/
def updateAttributesPhase (conn : Conn) (u : UpdateData)
    (muts0 : List Mutation) (applied0 : List String) : UpdateRun :=
  if hasChangeAttributes u then
    match u.d.attributes with
    | [] =>
      { muts := muts0, applied := applied0 ++ ["attributes"],
        result := .ok (resourceRead conn u.d) }
    | m :: _ =>
      let opts := updateAttributesOpts u.d.id m
      match conn.updateAcceleratorAttributes opts with
      | .error e =>
        { muts := muts0 ++ [Mutation.updateAttrs opts], applied := applied0,
          result := .error
            ("Error updating Global Accelerator accelerator attributes: " ++ e.errMsg) }
      | .ok _ =>
        { muts := muts0 ++ [Mutation.updateAttrs opts],
          applied := applied0 ++ ["attributes"],
          result := .ok (resourceRead conn u.d) }
  else
    { muts := muts0, applied := applied0, result := .ok (resourceRead conn u.d) }

/-- Model of `resourceAwsGlobalAcceleratorAcceleratorUpdate`.  Here `updateTimeout` is the
`d.Timeout(schema.TimeoutUpdate)` budget in poll ticks. -/
def resourceUpdate (conn : Conn) (u : UpdateData) (updateTimeout : Nat) : UpdateRun :=
  if hasChangeBase u then
    let opts := updateAcceleratorOpts u
    match conn.updateAccelerator opts with
    | .error e =>
      { muts := [Mutation.updateBase opts], applied := [],
        result := .error ("Error updating Global Accelerator accelerator: " ++ e.errMsg) }
    | .ok _ =>
      let applied := ["name", "ip_address_type", "enabled"]
      match waitForState (fun _ => conn.describeAccelerator u.d.id)
          updateWaitPending updateWaitTarget updateTimeout with
      | WaitResult.completed _ =>
        updateAttributesPhase conn u [Mutation.updateBase opts] applied
      | w =>
        { muts := [Mutation.updateBase opts], applied := applied,
          result := .error (w.waitErrMsg u.d.id) }
  else
    updateAttributesPhase conn u [] []

/-- Model of `resourceAwsGlobalAcceleratorAcceleratorDelete`. -/
def resourceDelete (conn : Conn) (d : ResourceData) : Except String Unit :=
  let opts : DeleteAcceleratorInput := { acceleratorArn := some d.id }
  match conn.deleteAccelerator opts with
  | .ok _ => .ok ()
  | .error e =>
    if isAWSErr e errCodeAcceleratorNotFoundException "" then .ok ()
    else .error ("Error deleting Global Accelerator accelerator: " ++ e.errMsg)

/-! Concrete fixtures used by witnesses and counterexamples. -/

/-- A remote accelerator entity already in the `DEPLOYED` status. -/
def accDeployed : Accelerator :=
  { acceleratorArn := some "arn0", name := some "acc", ipAddressType := some "IPV4",
    enabled := some true, ipSets := [], status := some acceleratorStatusDeployed }

/-- A remote accelerator entity still in the `IN_PROGRESS` status. -/
def accInProgress : Accelerator :=
  { accDeployed with status := some acceleratorStatusInProgress }

/-- A sample `attributes` map. -/
def m0 : AttrsMap :=
  { flowLogsEnabled := true, flowLogsS3Bucket := some "bkt", flowLogsS3Pfx := some "p" }

/-- A sample resource record. -/
def d0 : ResourceData :=
  { id := "arn0", name := "acc", ipAddressType := "", enabled := false,
    ipSets := [], attributes := [] }

/-- A connection stub on which every call succeeds trivially. -/
def stubConn : Conn :=
  { describeAccelerator := fun _ => .ok (some accDeployed),
    describeAcceleratorAttributes := fun _ => .ok none,
    updateAccelerator := fun _ => .ok (),
    updateAcceleratorAttributes := fun _ => .ok (),
    deleteAccelerator := fun _ => .ok () }

/-! Theorems. -/

/-- C9: the `attributes` diff-suppression function returns true exactly when
the old value is "1" and the new value is "0"; in particular old "0" with
new "1" is not suppressed (the rule is asymmetric). -/
theorem diffSuppress_one_zero_only :
    ∀ k o n : String,
      (attributesDiffSuppressFunc k o n = true ↔ (o = "1" ∧ n = "0")) ∧
      attributesDiffSuppressFunc k "0" "1" = false := by
  intro k o n
  constructor
  · simp [attributesDiffSuppressFunc]
  · simp [attributesDiffSuppressFunc]

/-- C8: the attributes flattening is total: a nil attributes sub-resource
yields the empty list (never an error); a present one yields exactly one
map in which every server-omitted field gets its zero default — `false` for
`flow_logs_enabled`, `""` for the two S3 strings — and every present field
value is carried over unchanged. -/
theorem flattenAttributes_total :
    resourceFlattenAttributes none = [] ∧
    ∀ a : AcceleratorAttributes,
      (resourceFlattenAttributes (some a)).length = 1 ∧
      ∀ m, resourceFlattenAttributes (some a) = [m] →
        (a.flowLogsEnabled = none → m.flowLogsEnabled = false) ∧
        (∀ b, a.flowLogsEnabled = some b → m.flowLogsEnabled = b) ∧
        (a.flowLogsS3Bucket = none → m.flowLogsS3Bucket = some "") ∧
        (∀ s, a.flowLogsS3Bucket = some s → m.flowLogsS3Bucket = some s) ∧
        (a.flowLogsS3Pfx = none → m.flowLogsS3Pfx = some "") ∧
        (∀ s, a.flowLogsS3Pfx = some s → m.flowLogsS3Pfx = some s) := by
  refine ⟨rfl, fun a => ⟨rfl, fun m hm => ?_⟩⟩
  simp only [resourceFlattenAttributes, List.cons.injEq, and_true] at hm
  subst hm
  refine ⟨fun h => by simp [h], fun b h => by simp [h], fun h => by simp [h],
    fun s h => by simp [h], fun h => by simp [h], fun s h => by simp [h]⟩

/-- A sample SDK attributes record with one field omitted by the server. -/
def a1 : AcceleratorAttributes :=
  { flowLogsEnabled := some true, flowLogsS3Bucket := none, flowLogsS3Pfx := some "p" }

/-- The map `a1` flattens to: present values carried over, the omitted
bucket defaulted to the empty string. -/
def m1 : AttrsMap :=
  { flowLogsEnabled := true, flowLogsS3Bucket := some "", flowLogsS3Pfx := some "p" }

/-- Witness for C8 at a concrete attributes record with one field omitted:
the present field is carried over and the omitted one defaulted. -/
theorem flattenAttributes_total_witness :
    resourceFlattenAttributes none = [] ∧
    (resourceFlattenAttributes (some a1)).length = 1 ∧
    m1.flowLogsEnabled = true ∧
    m1.flowLogsS3Bucket = some "" :=
  ⟨flattenAttributes_total.1, (flattenAttributes_total.2 a1).1,
    ((flattenAttributes_total.2 a1).2 m1 rfl).2.1 true rfl,
    ((flattenAttributes_total.2 a1).2 m1 rfl).2.2.1 rfl⟩

/-- Every string contains the empty substring. -/
theorem containsSubstr_empty (s : String) : containsSubstr s "" = true := by
  have h : "".isEmpty = true := rfl
  simp [containsSubstr, h]

/-- C7: Delete treats a not-found answer from the remote as success
(idempotent delete) and surfaces any other delete error to the caller. -/
theorem delete_idempotent (conn : Conn) (d : ResourceData) :
    (∀ r, conn.deleteAccelerator { acceleratorArn := some d.id } = .ok r →
        resourceDelete conn d = .ok ()) ∧
    (∀ m, conn.deleteAccelerator { acceleratorArn := some d.id } =
        .error (RemoteErr.awsErr errCodeAcceleratorNotFoundException m) →
        resourceDelete conn d = .ok ()) ∧
    (∀ m, conn.deleteAccelerator { acceleratorArn := some d.id } =
        .error (RemoteErr.goErr m) →
        resourceDelete conn d =
          .error ("Error deleting Global Accelerator accelerator: " ++ m)) ∧
    (∀ c m, c ≠ errCodeAcceleratorNotFoundException →
        conn.deleteAccelerator { acceleratorArn := some d.id } =
          .error (RemoteErr.awsErr c m) →
        resourceDelete conn d =
          .error ("Error deleting Global Accelerator accelerator: " ++
            (c ++ ": " ++ m))) := by
  refine ⟨fun r h => ?_, fun m h => ?_, fun m h => ?_, fun c m hc h => ?_⟩
  · simp [resourceDelete, h]
  · simp [resourceDelete, h, isAWSErr, containsSubstr_empty]
  · simp [resourceDelete, h, isAWSErr, RemoteErr.errMsg]
  · simp [resourceDelete, h, isAWSErr, hc, RemoteErr.errMsg]

/-- A connection whose delete call reports the accelerator as not found. -/
def connDeleteNotFound : Conn :=
  { stubConn with
    deleteAccelerator := fun _ =>
      .error (RemoteErr.awsErr errCodeAcceleratorNotFoundException "gone") }

/-- A connection whose delete call fails with a generic error. -/
def connDeleteFail : Conn :=
  { stubConn with deleteAccelerator := fun _ => .error (RemoteErr.goErr "boom") }

/-- Witness for C7: deleting an already-gone accelerator succeeds, and a
generic delete failure is surfaced. -/
theorem delete_idempotent_witness :
    resourceDelete connDeleteNotFound d0 = .ok () ∧
    resourceDelete connDeleteFail d0 =
      .error ("Error deleting Global Accelerator accelerator: " ++ "boom") :=
  ⟨(delete_idempotent connDeleteNotFound d0).2.1 "gone" rfl,
    (delete_idempotent connDeleteFail d0).2.2.1 "boom" rfl⟩

/-- C10: the create request always carries an explicit `Enabled` value —
`false` when the user left `enabled` unset (the zero value) — while
`IpAddressType` is omitted from the request exactly when unset, even though
the schema declares both fields optional (and computed).  Hence server-side
defaulting can only apply to `ip_address_type`. -/
theorem create_enabled_always_explicit :
    ∀ (d : ResourceData) (uniqueId : String),
      (createAcceleratorOpts d uniqueId).enabled = some d.enabled ∧
      (d.enabled = false →
        (createAcceleratorOpts d uniqueId).enabled = some false) ∧
      (d.ipAddressType = "" →
        (createAcceleratorOpts d uniqueId).ipAddressType = none) ∧
      (d.ipAddressType ≠ "" →
        (createAcceleratorOpts d uniqueId).ipAddressType = some d.ipAddressType) ∧
      enabledSchema.optional = true ∧ ipAddressTypeSchema.optional = true := by
  intro d uniqueId
  refine ⟨rfl, fun h => by simp [createAcceleratorOpts, h], fun h => ?_,
    fun h => ?_, rfl, rfl⟩
  · simp [createAcceleratorOpts, h]
  · simp [createAcceleratorOpts, h]

/-- Witness for C10 at a record whose optional fields are both unset. -/
theorem create_enabled_always_explicit_witness :
    (createAcceleratorOpts d0 "tok1").enabled = some false ∧
    (createAcceleratorOpts d0 "tok1").ipAddressType = none := by
  have h := create_enabled_always_explicit d0 "tok1"
  exact ⟨h.2.1 rfl, h.2.2.1 rfl⟩

/-- C1: when the remote answers `DescribeAccelerator` with a not-found
error, the Read handler does NOT take its not-found branch (the retrieve
wrapper has already converted the error into a nil accelerator with a nil
error), and instead dereferences the nil accelerator — a runtime panic —
rather than clearing the stored id and returning without error as the
resource's own not-found branch intends. -/
theorem read_not_found_derefs_nil :
    ∀ (conn : Conn) (d : ResourceData) (m : String),
      conn.describeAccelerator d.id =
        .error (RemoteErr.awsErr errCodeAcceleratorNotFoundException m) →
      resourceRead conn d = ReadOutcome.nilDeref ∧
      resourceRead conn d ≠ ReadOutcome.ok { d with id := "" } := by
  intro conn d m h
  have hr : resourceRetrieve conn d.id = .ok none := by
    simp [resourceRetrieve, retrieveResult, h, isAWSErr, containsSubstr_empty]
  refine ⟨?_, ?_⟩
  · simp [resourceRead, hr]
  · simp [resourceRead, hr]

/-- A connection on which the accelerator does not exist: describe reports
not-found. -/
def connDescribeNotFound : Conn :=
  { stubConn with
    describeAccelerator := fun _ =>
      .error (RemoteErr.awsErr errCodeAcceleratorNotFoundException "nf") }

/-- Witness for C1's failing input: reading `d0` over a connection that
reports not-found ends in the nil dereference. -/
theorem read_not_found_derefs_nil_witness :
    resourceRead connDescribeNotFound d0 = ReadOutcome.nilDeref :=
  (read_not_found_derefs_nil connDescribeNotFound d0 "nf" rfl).1

/-- C6: whenever a poll observation's refresh result carries a status in the
target set, the loop returns that observed state immediately (one tick,
whatever fuel remains); and the target set is `{DEPLOYED}` at both the
Create and the Update call site. -/
theorem waitFor_first_target_completes :
    (∀ (obs : Nat → Except RemoteErr (Option Accelerator))
        (pending target : List String) (i f : Nat) (last : String)
        (a : Accelerator) (s : String),
        stateRefreshStep (obs i) = RefreshResult.state a s →
        target.contains s = true →
        waitForStateAux obs pending target i (f + 1) last =
          WaitResult.completed a) ∧
    createWaitTarget = [acceleratorStatusDeployed] ∧
    updateWaitTarget = [acceleratorStatusDeployed] := by
  refine ⟨?_, rfl, rfl⟩
  intro obs pending target i f last a s h ht
  have htm : s ∈ target := by simpa using ht
  simp [waitForStateAux, h, htm]

/-- Witness for C6: a deployed observation completes the wait on the first
poll tick. -/
theorem waitFor_first_target_completes_witness :
    waitForStateAux (fun _ => .ok (some accDeployed)) createWaitPending
      createWaitTarget 0 1 "" = WaitResult.completed accDeployed :=
  waitFor_first_target_completes.1 (fun _ => .ok (some accDeployed))
    createWaitPending createWaitTarget 0 0 "" accDeployed acceleratorStatusDeployed
    rfl (by decide)

/-- C4: the poll loop treats every absence (not-found) observation as
transient.  First conjunct: for any run in which the first `n` observations
are not-found and the (n+1)-st is an entity whose status is in the target
set, the loop skips over all the absences and completes with that entity
(provided the timeout budget exceeds `n`).  Second conjunct: if every
observation is not-found, the loop keeps polling until the budget is
exhausted and then times out — absence alone never aborts it early. -/
theorem waitFor_absence_transient :
    (∀ (obs : Nat → Except RemoteErr (Option Accelerator))
        (pending target : List String) (n : Nat) (a : Accelerator) (s : String)
        (i fuel : Nat) (last : String),
        (∀ k, k < n → obs (i + k) = .ok none) →
        obs (i + n) = .ok (some a) →
        a.status = some s →
        target.contains s = true →
        n < fuel →
        waitForStateAux obs pending target i fuel last = WaitResult.completed a) ∧
    (∀ (obs : Nat → Except RemoteErr (Option Accelerator))
        (pending target : List String) (fuel i : Nat) (last : String),
        (∀ k, obs k = .ok none) →
        waitForStateAux obs pending target i fuel last =
          WaitResult.timedOut last) := by
  constructor
  · intro obs pending target n a s
    induction n with
    | zero =>
      intro i fuel last hpre hobs hst ht hfuel
      obtain ⟨f, rfl⟩ : ∃ f, fuel = f + 1 := ⟨fuel - 1, by omega⟩
      have hobs' : obs i = .ok (some a) := by simpa using hobs
      have htm : s ∈ target := by simpa using ht
      simp [waitForStateAux, stateRefreshStep, retrieveResult, hobs', hst, htm]
    | succ n ih =>
      intro i fuel last hpre hobs hst ht hfuel
      obtain ⟨f, rfl⟩ : ∃ f, fuel = f + 1 := ⟨fuel - 1, by omega⟩
      have h0 : obs i = .ok none := by simpa using hpre 0 (Nat.succ_pos n)
      have step : waitForStateAux obs pending target i (f + 1) last =
          waitForStateAux obs pending target (i + 1) f last := by
        simp [waitForStateAux, stateRefreshStep, retrieveResult, h0]
      rw [step]
      refine ih (i + 1) f last ?_ ?_ hst ht (by omega)
      · intro k hk
        rw [show i + 1 + k = i + (k + 1) by omega]
        exact hpre (k + 1) (by omega)
      · rw [show i + 1 + n = i + (n + 1) by omega]
        exact hobs
  · intro obs pending target fuel
    induction fuel with
    | zero => intro i last _; rfl
    | succ f ih =>
      intro i last h
      have step : waitForStateAux obs pending target i (f + 1) last =
          waitForStateAux obs pending target (i + 1) f last := by
        simp [waitForStateAux, stateRefreshStep, retrieveResult, h i]
      rw [step]
      exact ih (i + 1) last h

/-- An observation run: two not-found answers, then a deployed entity. -/
def obs4 : Nat → Except RemoteErr (Option Accelerator) :=
  fun k => if k < 2 then .ok none else .ok (some accDeployed)

/-- Witness for C4: the run `obs4` completes after skipping the absences,
and an all-absent run times out rather than erroring. -/
theorem waitFor_absence_transient_witness :
    waitForStateAux obs4 createWaitPending createWaitTarget 0 5 "" =
      WaitResult.completed accDeployed ∧
    waitForStateAux (fun _ => .ok none) createWaitPending createWaitTarget 0 4 "x" =
      WaitResult.timedOut "x" :=
  ⟨waitFor_absence_transient.1 obs4 createWaitPending createWaitTarget 2
      accDeployed acceleratorStatusDeployed 0 5 ""
      (by intro k hk; interval_cases k <;> rfl) rfl rfl (by decide) (by omega),
    waitFor_absence_transient.2 (fun _ => .ok none) createWaitPending
      createWaitTarget 4 0 "x" (fun _ => rfl)⟩

/-- Helper for C5: against the `{IN_PROGRESS}` / `{DEPLOYED}` pending/target
sets the handlers use, a run whose every observation is an entity still
`IN_PROGRESS` consumes the whole fuel budget and times out carrying the
last observed status. -/
theorem waitAux_all_in_progress_times_out
    (obs : Nat → Except RemoteErr (Option Accelerator))
    (h : ∀ k, ∃ a, obs k = .ok (some a) ∧ a.status = some acceleratorStatusInProgress) :
    ∀ (f i : Nat) (last : String),
      waitForStateAux obs [acceleratorStatusInProgress] [acceleratorStatusDeployed]
        i (f + 1) last = WaitResult.timedOut acceleratorStatusInProgress := by
  have hne : acceleratorStatusInProgress ≠ acceleratorStatusDeployed := by decide
  intro f
  induction f with
  | zero =>
    intro i last
    obtain ⟨a, ho, hs⟩ := h i
    simp [waitForStateAux, stateRefreshStep, retrieveResult, ho, hs, hne]
  | succ f ih =>
    intro i last
    obtain ⟨a, ho, hs⟩ := h i
    have step : waitForStateAux obs [acceleratorStatusInProgress]
        [acceleratorStatusDeployed] i (f + 1 + 1) last =
        waitForStateAux obs [acceleratorStatusInProgress]
          [acceleratorStatusDeployed] (i + 1) (f + 1) acceleratorStatusInProgress := by
      simp [waitForStateAux, stateRefreshStep, retrieveResult, ho, hs, hne]
    rw [step]
    exact ih (i + 1) acceleratorStatusInProgress

/-- C5: for any observation run whose statuses never reach the target set
(every observation still `IN_PROGRESS`), the wait loop with a timeout
budget of `f + 1` poll ticks fails with a timeout carrying the last
observed status, at both the Create and the Update call site's
pending/target sets.  The loop is a total function of its fuel, so it can
never hang indefinitely. -/
theorem waitFor_never_target_times_out :
    ∀ (obs : Nat → Except RemoteErr (Option Accelerator)) (f i : Nat) (last : String),
      (∀ k, ∃ a, obs k = .ok (some a) ∧
          a.status = some acceleratorStatusInProgress) →
      waitForStateAux obs createWaitPending createWaitTarget i (f + 1) last =
          WaitResult.timedOut acceleratorStatusInProgress ∧
      waitForStateAux obs updateWaitPending updateWaitTarget i (f + 1) last =
          WaitResult.timedOut acceleratorStatusInProgress := by
  intro obs f i last h
  exact ⟨waitAux_all_in_progress_times_out obs h f i last,
    waitAux_all_in_progress_times_out obs h f i last⟩

/-- Witness for C5: a stub that always answers `IN_PROGRESS` makes a
three-tick wait time out with last status `IN_PROGRESS`. -/
theorem waitFor_never_target_times_out_witness :
    waitForStateAux (fun _ => .ok (some accInProgress)) createWaitPending
      createWaitTarget 0 3 "" = WaitResult.timedOut acceleratorStatusInProgress :=
  (waitFor_never_target_times_out (fun _ => .ok (some accInProgress)) 2 0 ""
    (fun _ => ⟨accInProgress, rfl, rfl⟩)).1

/-- When describe answers with a `DEPLOYED` entity, the update-site wait
completes with it on the first tick of any positive budget. -/
theorem updateWait_completes (conn : Conn) (arn : String) (acc : Accelerator)
    (T : Nat) (hdesc : conn.describeAccelerator arn = .ok (some acc))
    (hst : acc.status = some acceleratorStatusDeployed) (hT : 0 < T) :
    waitForState (fun _ => conn.describeAccelerator arn) updateWaitPending
      updateWaitTarget T = WaitResult.completed acc := by
  obtain ⟨f, rfl⟩ : ∃ f, T = f + 1 := ⟨T - 1, by omega⟩
  simp [waitForState, waitForStateAux, stateRefreshStep, retrieveResult, hdesc,
    hst, updateWaitTarget]

/-- With the base fields changed and the base mutation and wait succeeding,
the Update handler reduces to the attributes phase seeded with the recorded
base mutation and the three base keys marked applied. -/
theorem resourceUpdate_base_changed (conn : Conn) (u : UpdateData) (T : Nat)
    (acc : Accelerator) (hb : hasChangeBase u)
    (hupd : conn.updateAccelerator (updateAcceleratorOpts u) = .ok ())
    (hdesc : conn.describeAccelerator u.d.id = .ok (some acc))
    (hst : acc.status = some acceleratorStatusDeployed) (hT : 0 < T) :
    resourceUpdate conn u T =
      updateAttributesPhase conn u
        [Mutation.updateBase (updateAcceleratorOpts u)]
        ["name", "ip_address_type", "enabled"] := by
  have hw := updateWait_completes conn u.d.id acc T hdesc hst hT
  simp [resourceUpdate, hb, hupd, hw]

/-- With the base fields unchanged, the Update handler issues no base
mutation and goes straight to the attributes phase. -/
theorem resourceUpdate_base_unchanged (conn : Conn) (u : UpdateData) (T : Nat)
    (hb : ¬ hasChangeBase u) :
    resourceUpdate conn u T = updateAttributesPhase conn u [] [] := by
  simp [resourceUpdate, hb]

/-- Attributes unchanged: the phase records nothing and runs the terminal
Read. -/
theorem phase_attrs_unchanged (conn : Conn) (u : UpdateData)
    (muts0 : List Mutation) (applied0 : List String)
    (h : ¬ hasChangeAttributes u) :
    updateAttributesPhase conn u muts0 applied0 =
      { muts := muts0, applied := applied0,
        result := .ok (resourceRead conn u.d) } := by
  simp [updateAttributesPhase, h]

/-- Attributes changed to the empty list: the phase issues no call, still
marks the key applied, and runs the terminal Read. -/
theorem phase_attrs_changed_empty (conn : Conn) (u : UpdateData)
    (muts0 : List Mutation) (applied0 : List String)
    (h : hasChangeAttributes u) (he : u.d.attributes = []) :
    updateAttributesPhase conn u muts0 applied0 =
      { muts := muts0, applied := applied0 ++ ["attributes"],
        result := .ok (resourceRead conn u.d) } := by
  simp [updateAttributesPhase, h, he]

/-- Attributes changed to a non-empty list: the phase issues the
`UpdateAcceleratorAttributes` call (recorded whether or not it fails). -/
theorem phase_attrs_changed_cons_muts (conn : Conn) (u : UpdateData)
    (muts0 : List Mutation) (applied0 : List String) (m : AttrsMap)
    (rest : List AttrsMap) (h : hasChangeAttributes u)
    (he : u.d.attributes = m :: rest) :
    (updateAttributesPhase conn u muts0 applied0).muts =
      muts0 ++ [Mutation.updateAttrs (updateAttributesOpts u.d.id m)] := by
  cases hc : conn.updateAcceleratorAttributes (updateAttributesOpts u.d.id m) <;>
    simp [updateAttributesPhase, h, he, hc]

/-- Attributes changed to a non-empty list and the call fails: the phase
returns the error, does not mark the attributes key applied, and the run
so far stays recorded unchanged. -/
theorem phase_attrs_changed_cons_err (conn : Conn) (u : UpdateData)
    (muts0 : List Mutation) (applied0 : List String) (m : AttrsMap)
    (rest : List AttrsMap) (e : RemoteErr) (h : hasChangeAttributes u)
    (he : u.d.attributes = m :: rest)
    (hfail : conn.updateAcceleratorAttributes (updateAttributesOpts u.d.id m) =
      .error e) :
    updateAttributesPhase conn u muts0 applied0 =
      { muts := muts0 ++ [Mutation.updateAttrs (updateAttributesOpts u.d.id m)],
        applied := applied0,
        result := .error
          ("Error updating Global Accelerator accelerator attributes: " ++
            e.errMsg) } := by
  simp [updateAttributesPhase, h, he, hfail]

/-- C2 (amended): assuming the base mutation and its wait succeed when
taken, a run of the Update handler issues the base update mutation if and
only if `name`, `ip_address_type` or `enabled` differ from the previous
desired state; it issues the attributes sub-operation if and only if
`attributes` differ AND the new attributes list is non-empty (regardless of
whether the base fields changed); and when neither group changed it issues
no remote mutation and its result is exactly that of the terminal Read. -/
theorem update_diff_scoped (conn : Conn) (u : UpdateData) (T : Nat)
    (acc : Accelerator)
    (hupd : conn.updateAccelerator (updateAcceleratorOpts u) = .ok ())
    (hdesc : conn.describeAccelerator u.d.id = .ok (some acc))
    (hst : acc.status = some acceleratorStatusDeployed) (hT : 0 < T) :
    ((resourceUpdate conn u T).muts.any Mutation.isBase = true ↔ hasChangeBase u) ∧
    ((resourceUpdate conn u T).muts.any Mutation.isAttrs = true ↔
      (hasChangeAttributes u ∧ u.d.attributes ≠ [])) ∧
    (¬ hasChangeBase u → ¬ hasChangeAttributes u →
      (resourceUpdate conn u T).muts = [] ∧
      (resourceUpdate conn u T).result = .ok (resourceRead conn u.d)) := by
  by_cases hb : hasChangeBase u
  · rw [resourceUpdate_base_changed conn u T acc hb hupd hdesc hst hT]
    by_cases ha : hasChangeAttributes u
    · cases he : u.d.attributes with
      | nil =>
        rw [phase_attrs_changed_empty conn u _ _ ha he]
        simp [hb, ha, he, Mutation.isBase, Mutation.isAttrs]
      | cons m rest =>
        have hm := phase_attrs_changed_cons_muts conn u
          [Mutation.updateBase (updateAcceleratorOpts u)]
          ["name", "ip_address_type", "enabled"] m rest ha he
        rw [hm]
        simp [hb, ha, he, Mutation.isBase, Mutation.isAttrs]
    · rw [phase_attrs_unchanged conn u _ _ ha]
      simp [hb, ha, Mutation.isBase, Mutation.isAttrs]
  · rw [resourceUpdate_base_unchanged conn u T hb]
    by_cases ha : hasChangeAttributes u
    · cases he : u.d.attributes with
      | nil =>
        rw [phase_attrs_changed_empty conn u _ _ ha he]
        simp [hb, ha, he, Mutation.isBase, Mutation.isAttrs]
      | cons m rest =>
        have hm := phase_attrs_changed_cons_muts conn u [] [] m rest ha he
        rw [hm]
        simp [hb, ha, he, Mutation.isBase, Mutation.isAttrs]
    · rw [phase_attrs_unchanged conn u _ _ ha]
      simp [hb, ha, Mutation.isBase, Mutation.isAttrs]

/-- Update input in which only `attributes` changed, the new list being
empty (the user removed the attributes block). -/
def u2 : UpdateData :=
  { d := d0, oldName := "acc", oldIpAddressType := "", oldEnabled := false,
    oldAttributes := [m0] }

/-- Counterexample for C2 as stated: on `u2` the attributes DID differ, yet
the Update run issues no `UpdateAcceleratorAttributes` call at all (no
remote mutation whatsoever), because the handler only calls the
sub-operation when the new attributes list is non-empty. -/
theorem update_attrs_changed_but_no_call :
    hasChangeAttributes u2 ∧
    (resourceUpdate stubConn u2 1).muts = [] ∧
    (resourceUpdate stubConn u2 1).muts.any Mutation.isAttrs = false := by
  refine ⟨by decide, by decide, by decide⟩

/-- Update input in which both the base fields and the attributes changed,
the new attributes list being `[m0]`. -/
def u3 : UpdateData :=
  { d := { d0 with name := "acc2", attributes := [m0] },
    oldName := "acc", oldIpAddressType := "", oldEnabled := false,
    oldAttributes := [] }

/-- Witness for C2 over the all-success stub connection with both field
groups changed: both mutations are issued. -/
theorem update_diff_scoped_witness :
    ((resourceUpdate stubConn u3 1).muts.any Mutation.isBase = true ↔
      hasChangeBase u3) ∧
    ((resourceUpdate stubConn u3 1).muts.any Mutation.isAttrs = true ↔
      (hasChangeAttributes u3 ∧ u3.d.attributes ≠ [])) :=
  ⟨(update_diff_scoped stubConn u3 1 accDeployed rfl rfl rfl (by omega)).1,
    (update_diff_scoped stubConn u3 1 accDeployed rfl rfl rfl (by omega)).2.1⟩

/-- C3: in an Update run where the base-field mutation has already been
issued and succeeded (including its wait), a failing attributes call leaves
exactly that one base mutation in the trace — carrying the new desired
values, with no compensating/rollback mutation after it — the three base
keys recorded as applied, and the run reporting the attributes failure. -/
theorem update_attrs_failure_no_rollback (conn : Conn) (u : UpdateData)
    (T : Nat) (acc : Accelerator) (m : AttrsMap) (rest : List AttrsMap)
    (e : RemoteErr) (hb : hasChangeBase u) (ha : hasChangeAttributes u)
    (he : u.d.attributes = m :: rest)
    (hupd : conn.updateAccelerator (updateAcceleratorOpts u) = .ok ())
    (hdesc : conn.describeAccelerator u.d.id = .ok (some acc))
    (hst : acc.status = some acceleratorStatusDeployed) (hT : 0 < T)
    (hfail : conn.updateAcceleratorAttributes (updateAttributesOpts u.d.id m) =
      .error e) :
    (resourceUpdate conn u T).muts =
      [Mutation.updateBase (updateAcceleratorOpts u),
       Mutation.updateAttrs (updateAttributesOpts u.d.id m)] ∧
    (resourceUpdate conn u T).muts.filter Mutation.isBase =
      [Mutation.updateBase (updateAcceleratorOpts u)] ∧
    (resourceUpdate conn u T).applied = ["name", "ip_address_type", "enabled"] ∧
    (resourceUpdate conn u T).result =
      .error ("Error updating Global Accelerator accelerator attributes: " ++
        e.errMsg) := by
  rw [resourceUpdate_base_changed conn u T acc hb hupd hdesc hst hT,
    phase_attrs_changed_cons_err conn u _ _ m rest e ha he hfail]
  simp [Mutation.isBase]

/-- A connection on which everything succeeds except the attributes update,
which always fails. -/
def connAttrFail : Conn :=
  { stubConn with
    updateAcceleratorAttributes := fun _ => .error (RemoteErr.goErr "boom") }

/-- Witness for C3 on the failing-attributes connection. -/
theorem update_attrs_failure_no_rollback_witness :
    (resourceUpdate connAttrFail u3 1).muts =
      [Mutation.updateBase (updateAcceleratorOpts u3),
       Mutation.updateAttrs (updateAttributesOpts u3.d.id m0)] ∧
    (resourceUpdate connAttrFail u3 1).muts.filter Mutation.isBase =
      [Mutation.updateBase (updateAcceleratorOpts u3)] ∧
    (resourceUpdate connAttrFail u3 1).applied =
      ["name", "ip_address_type", "enabled"] ∧
    (resourceUpdate connAttrFail u3 1).result =
      .error ("Error updating Global Accelerator accelerator attributes: " ++
        (RemoteErr.goErr "boom").errMsg) :=
  update_attrs_failure_no_rollback connAttrFail u3 1 accDeployed m0 []
    (RemoteErr.goErr "boom") (by decide) (by decide) rfl rfl rfl rfl
    (by omega) rfl
